import Mathlib

/-!
Verification of the Barista chat frontend (`ChatInterface`, a React
component).  The component keeps four pieces of state — the message list,
the text input, the loading flag and the session identifier — and its only
state-changing operation on the chat flow is `handleSend`, which builds a
POST request to `/api/chat/`, interprets the JSON reply, and appends a
user/assistant message pair.  We embed the component as a pure step
function: the `fetch` outcome is an explicit parameter and the issued
requests are returned alongside the new state.  JavaScript truthiness
(`x || y`, `!x`, `String.prototype.trim`) is modelled explicitly, since
the component relies on it for the empty-input guard, the session guard
`if (!sessionId)` and the `data.image_url || undefined` coercion.
-/

namespace Barista

/-- The whitespace characters stripped by JavaScript `String.prototype.trim`
(the ASCII ones; the component's inputs are ordinary text). -/
def isJsWhitespace (c : Char) : Bool :=
  c == ' ' || c == '\t' || c == '\n' || c == '\r' || c == '\x0b' || c == '\x0c'

/-- JavaScript `s.trim()`: strip leading and trailing whitespace. -/
def jsTrim (s : String) : String :=
  String.mk (((s.toList.dropWhile isJsWhitespace).reverse.dropWhile
      isJsWhitespace).reverse)

/-- JavaScript truthiness of a `string | null | undefined` value:
`null`/`undefined` and the empty string are falsy. -/
def jsTruthy : Option String → Bool
  | none => false
  | some s => !(s == "")

/-- JavaScript `a || b` where `a : string | undefined` and `b : string`:
used for `messageText || input.trim()`. -/
def jsOrString (a : Option String) (b : String) : String :=
  match a with
  | none => b
  | some s => if s == "" then b else s

/-- JavaScript `x || undefined` on a `string | null | undefined` value:
used for `imageUrl: data.image_url || undefined`. -/
def jsOrUndefined (x : Option String) : Option String :=
  if jsTruthy x then x else none

/-- A chat message held in UI state.  The TypeScript interface restricts
`role` to the union `"user" | "assistant"`; at runtime the role is a string,
so we model it as one and prove the restriction as an invariant. -/
structure Message where
  role : String
  content : String
  imageUrl : Option String
  deriving Repr, DecidableEq

/-- The component state relevant to the chat flow: the `useState` hooks
`messages`, `input`, `isLoading` and `sessionId`. -/
structure ChatState where
  messages : List Message
  input : String
  isLoading : Bool
  sessionId : Option String
  deriving Repr, DecidableEq

/-- The JSON body of the chat response as the component reads it:
`data.response`, `data.session_id`, `data.image_url` (the last two may be
absent or `null`, modelled as `none`). -/
structure ChatResponse where
  response : String
  session_id : Option String
  image_url : Option String
  deriving Repr, DecidableEq

/-- An HTTP request issued by the component: the target URL and the JSON
body, which carries exactly the fields `message` and `session_id`. -/
structure ChatRequest where
  url : String
  message : String
  session_id : Option String
  deriving Repr, DecidableEq

/-- The outcome of the `fetch` call: a network error (the promise rejects),
or an HTTP response with its `ok` flag and parsed JSON body.  A non-`ok`
response makes `handleSend` throw, landing in the same `catch` block as a
network error. -/
inductive FetchResult
  | netError
  | http (ok : Bool) (data : ChatResponse)
  deriving Repr, DecidableEq

/-- The static apology text appended by the `catch` block. -/
def errorText : String := "Sorry, I encountered an error. Please try again."

/-- The path of the single chat endpoint. -/
def apiChatPath : String := "/api/chat/"

/-- The embedding of `handleSend`.  Mirrors the source line by line:
`text = messageText || input.trim()`; return if `!text || isLoading`;
append the user message, clear the input, set loading; fetch
`${apiBaseUrl}/api/chat/` with body `{message: text, session_id}`;
on a non-ok status throw; on success set the session id `if (!sessionId)`,
append the assistant message with `imageUrl: data.image_url || undefined`;
on any thrown error append the static apology; finally clear loading.
Returns the new state and the list of requests issued. -/
def handleSend (apiBaseUrl : String) (messageText : Option String)
    (fetched : FetchResult) (st : ChatState) : ChatState × List ChatRequest :=
  let text := jsOrString messageText (jsTrim st.input)
  if text == "" || st.isLoading then (st, [])
  else
    let userMessage : Message := ⟨"user", text, none⟩
    let st1 : ChatState :=
      { st with messages := st.messages ++ [userMessage],
                input := "", isLoading := true }
    let req : ChatRequest := ⟨apiBaseUrl ++ apiChatPath, text, st.sessionId⟩
    match fetched with
    | .http true data =>
        let sid := if jsTruthy st1.sessionId then st1.sessionId
                   else data.session_id
        let assistantMessage : Message :=
          ⟨"assistant", data.response, jsOrUndefined data.image_url⟩
        ({ st1 with sessionId := sid,
                    messages := st1.messages ++ [assistantMessage],
                    isLoading := false }, [req])
    | _ =>
        let errorMessage : Message := ⟨"assistant", errorText, none⟩
        ({ st1 with messages := st1.messages ++ [errorMessage],
                    isLoading := false }, [req])

/-- The component's mounted state.  All four hooks initialize from
constants — `useState<Message[]>([])`, `useState("")`, `useState(false)`,
`useState<string | null>(null)` — and no effect reads browser storage, so
the mounted state ignores whatever localStorage holds.  `storage` is the
browser's localStorage content (key/value pairs). -/
def mountChatInterface (_storage : List (String × String)) : ChatState :=
  ⟨[], "", false, none⟩

/-- localStorage lookup: the value stored under `key`, `none` when absent. -/
def storedValue (storage : List (String × String)) (key : String) :
    Option String :=
  (storage.find? (fun kv => kv.1 == key)).map (fun kv => kv.2)

/-- Modelled from the spec: the code-review notes say `ChatInterface.tsx`
loads the persisted `session_id` from localStorage on component mount and
stores it there when received.  This definition is the mount the notes
describe; the component in the source (`mountChatInterface`) is compared
against it. -/
def mountChatInterfaceSpec (storage : List (String × String)) : ChatState :=
  ⟨[], "", false, storedValue storage "session_id"⟩

/-- One completed send: the argument `handleSend` was called with (the
voice transcript, or `none` for a button/Enter send) and the fetch
outcome observed. -/
structure SendEvent where
  messageText : Option String
  fetched : FetchResult
  deriving Repr, DecidableEq

/-- The state after one completed send. -/
def stepSend (apiBaseUrl : String) (st : ChatState) (ev : SendEvent) :
    ChatState :=
  (handleSend apiBaseUrl ev.messageText ev.fetched st).1

/-- One fold step of a sequential run: apply `handleSend` to the current
state and append the issued requests to the log. -/
def runSendsStep (apiBaseUrl : String)
    (acc : ChatState × List ChatRequest) (ev : SendEvent) :
    ChatState × List ChatRequest :=
  let r := handleSend apiBaseUrl ev.messageText ev.fetched acc.1
  (r.1, acc.2 ++ r.2)

/-- Sequential sends from the mounted state: the final state and the full
log of issued requests. -/
def runSends (apiBaseUrl : String) (events : List SendEvent) :
    ChatState × List ChatRequest :=
  events.foldl (runSendsStep apiBaseUrl) (mountChatInterface [], [])

/-- A fetch outcome that lands in the `catch` block: a network error, or an
HTTP response whose `ok` flag is false (the component throws on it). -/
def fetchFailed : FetchResult → Bool
  | .netError => true
  | .http ok _ => !ok

/-- Every message in the list has role `"user"` or `"assistant"`. -/
def rolesOk (l : List Message) : Bool :=
  l.all (fun m => m.role == "user" || m.role == "assistant")

/-- Whether a `handleSend` call passes the guard `if (!text || isLoading)`
and so issues a request. -/
def sendAccepted (st : ChatState) (messageText : Option String) : Bool :=
  !(jsOrString messageText (jsTrim st.input) == "") && !st.isLoading

/-- Strict user/assistant alternation starting with a user message, in
complete pairs (so the list has even length). -/
def alternatingRoles : List Message → Bool
  | [] => true
  | [_] => false
  | u :: a :: rest =>
      u.role == "user" && a.role == "assistant" && alternatingRoles rest

/-- UI availability: the text input and the voice button carry
`disabled={isLoading}`; the send button carries
`disabled={isLoading || !input.trim()}`. -/
def inputDisabled (st : ChatState) : Bool := st.isLoading

def voiceButtonDisabled (st : ChatState) : Bool := st.isLoading

def sendButtonDisabled (st : ChatState) : Bool :=
  st.isLoading || (jsTrim st.input == "")

/-! ## Helper lemmas -/

theorem sendAccepted_iff (st : ChatState) (mt : Option String) :
    sendAccepted st mt = true ↔
      (jsOrString mt (jsTrim st.input) ≠ "" ∧ st.isLoading = false) := by
  simp [sendAccepted]

theorem handleSend_rejected (b : String) (mt : Option String) (f : FetchResult)
    (st : ChatState) (h : sendAccepted st mt = false) :
    handleSend b mt f st = (st, []) := by
  unfold handleSend
  by_cases he : jsOrString mt (jsTrim st.input) = ""
  · simp [he]
  · have hl : st.isLoading = true := by
      simpa [sendAccepted, he] using h
    simp [hl]

theorem handleSend_success (b : String) (mt : Option String) (st : ChatState)
    (d : ChatResponse) (h : sendAccepted st mt = true) :
    handleSend b mt (.http true d) st =
      ({ st with
          messages := st.messages ++
            [⟨"user", jsOrString mt (jsTrim st.input), none⟩,
             ⟨"assistant", d.response, jsOrUndefined d.image_url⟩],
          input := "",
          isLoading := false,
          sessionId := if jsTruthy st.sessionId then st.sessionId
                       else d.session_id },
       [⟨b ++ apiChatPath, jsOrString mt (jsTrim st.input), st.sessionId⟩]) := by
  rw [sendAccepted_iff] at h
  simp [handleSend, h.1, h.2]

theorem handleSend_failure (b : String) (mt : Option String) (st : ChatState)
    (f : FetchResult) (h : sendAccepted st mt = true)
    (hf : fetchFailed f = true) :
    handleSend b mt f st =
      ({ st with
          messages := st.messages ++
            [⟨"user", jsOrString mt (jsTrim st.input), none⟩,
             ⟨"assistant", errorText, none⟩],
          input := "",
          isLoading := false },
       [⟨b ++ apiChatPath, jsOrString mt (jsTrim st.input), st.sessionId⟩]) := by
  rw [sendAccepted_iff] at h
  cases f with
  | netError => simp [handleSend, h.1, h.2]
  | http ok d =>
      cases ok with
      | false => simp [handleSend, h.1, h.2]
      | true => simp [fetchFailed] at hf

theorem alternatingRoles_append_pair : ∀ (l : List Message) (u a : Message),
    alternatingRoles l = true → u.role = "user" → a.role = "assistant" →
    alternatingRoles (l ++ [u, a]) = true
  | [], u, a, _, hu, ha => by simp [alternatingRoles, hu, ha]
  | [_], _, _, h, _, _ => by simp [alternatingRoles] at h
  | x :: y :: rest, u, a, h, hu, ha => by
      have h' : ((x.role == "user" && y.role == "assistant")
          && alternatingRoles rest) = true := h
      rw [Bool.and_eq_true] at h'
      show ((x.role == "user" && y.role == "assistant")
          && alternatingRoles (rest ++ [u, a])) = true
      rw [Bool.and_eq_true]
      exact ⟨h'.1, alternatingRoles_append_pair rest u a h'.2 hu ha⟩

theorem alternatingRoles_even : ∀ l : List Message,
    alternatingRoles l = true → l.length % 2 = 0
  | [], _ => rfl
  | [_], h => by simp [alternatingRoles] at h
  | x :: y :: rest, h => by
      have h' : ((x.role == "user" && y.role == "assistant")
          && alternatingRoles rest) = true := h
      rw [Bool.and_eq_true] at h'
      have ih := alternatingRoles_even rest h'.2
      simp only [List.length_cons]
      omega

theorem rolesOk_append_pair (l : List Message) (u a : Message)
    (hl : rolesOk l = true) (hu : u.role = "user") (ha : a.role = "assistant") :
    rolesOk (l ++ [u, a]) = true := by
  simp only [rolesOk, List.all_append] at hl ⊢
  rw [Bool.and_eq_true]
  exact ⟨hl, by simp [hu, ha]⟩

/-- Shape of the message list after any `handleSend` call: unchanged when the
guard rejects, otherwise a user/assistant pair is appended. -/
theorem handleSend_messages_shape (b : String) (mt : Option String)
    (f : FetchResult) (st : ChatState) :
    ((handleSend b mt f st).1.messages = st.messages ∧ sendAccepted st mt = false)
    ∨ ∃ u a, (handleSend b mt f st).1.messages = st.messages ++ [u, a]
        ∧ u.role = "user" ∧ a.role = "assistant" := by
  by_cases h : sendAccepted st mt = true
  · right
    cases f with
    | netError =>
        exact ⟨_, _, by rw [handleSend_failure b mt st .netError h rfl], rfl, rfl⟩
    | http ok d =>
        cases ok with
        | true => exact ⟨_, _, by rw [handleSend_success b mt st d h], rfl, rfl⟩
        | false =>
            exact ⟨_, _, by rw [handleSend_failure b mt st (.http false d) h rfl],
              rfl, rfl⟩
  · left
    rw [Bool.not_eq_true] at h
    rw [handleSend_rejected b mt f st h]
    exact ⟨rfl, h⟩

theorem stepSend_messages_length (b : String) (st : ChatState) (ev : SendEvent) :
    (stepSend b st ev).messages.length =
      st.messages.length +
        (if sendAccepted st ev.messageText then 2 else 0) := by
  rcases handleSend_messages_shape b ev.messageText ev.fetched st with
    ⟨heq, hrej⟩ | ⟨u, a, heq, _, _⟩
  · simp [stepSend, heq, hrej]
  · by_cases h : sendAccepted st ev.messageText = true
    · simp [stepSend, heq, h]
    · rw [Bool.not_eq_true] at h
      rw [stepSend, handleSend_rejected b ev.messageText ev.fetched st h]
      simp [h]

theorem stepSend_alternating (b : String) (st : ChatState) (ev : SendEvent)
    (h : alternatingRoles st.messages = true) :
    alternatingRoles (stepSend b st ev).messages = true := by
  rcases handleSend_messages_shape b ev.messageText ev.fetched st with
    ⟨heq, _⟩ | ⟨u, a, heq, hu, ha⟩
  · rw [stepSend, heq]; exact h
  · rw [stepSend, heq]; exact alternatingRoles_append_pair _ u a h hu ha

theorem stepSend_rolesOk (b : String) (st : ChatState) (ev : SendEvent)
    (h : rolesOk st.messages = true) :
    rolesOk (stepSend b st ev).messages = true := by
  rcases handleSend_messages_shape b ev.messageText ev.fetched st with
    ⟨heq, _⟩ | ⟨u, a, heq, hu, ha⟩
  · rw [stepSend, heq]; exact h
  · rw [stepSend, heq]; exact rolesOk_append_pair _ u a h hu ha

/-- The state component of a sequential run is the fold of `stepSend`. -/
theorem runSends_foldl_fst (b : String) (events : List SendEvent)
    (acc : ChatState × List ChatRequest) :
    (events.foldl (runSendsStep b) acc).1 =
      events.foldl (stepSend b) acc.1 := by
  induction events generalizing acc with
  | nil => rfl
  | cons ev evs ih => exact ih (runSendsStep b acc ev)

theorem foldl_stepSend_alternating (b : String) (events : List SendEvent)
    (st : ChatState) (h : alternatingRoles st.messages = true) :
    alternatingRoles (events.foldl (stepSend b) st).messages = true := by
  induction events generalizing st with
  | nil => exact h
  | cons ev evs ih => exact ih _ (stepSend_alternating b st ev h)

theorem foldl_stepSend_rolesOk (b : String) (events : List SendEvent)
    (st : ChatState) (h : rolesOk st.messages = true) :
    rolesOk (events.foldl (stepSend b) st).messages = true := by
  induction events generalizing st with
  | nil => exact h
  | cons ev evs ih => exact ih _ (stepSend_rolesOk b st ev h)

/-- Every request `handleSend` ever issues targets the chat endpoint. -/
theorem handleSend_requests_url (b : String) (mt : Option String)
    (f : FetchResult) (st : ChatState) :
    ∀ r ∈ (handleSend b mt f st).2, r.url = b ++ apiChatPath := by
  by_cases h : sendAccepted st mt = true
  · cases f with
    | netError =>
        rw [handleSend_failure b mt st .netError h rfl]
        simp
    | http ok d =>
        cases ok with
        | true =>
            rw [handleSend_success b mt st d h]
            simp
        | false =>
            rw [handleSend_failure b mt st (.http false d) h rfl]
            simp
  · rw [Bool.not_eq_true] at h
    rw [handleSend_rejected b mt f st h]
    simp

theorem foldl_requests_url (b : String) (events : List SendEvent)
    (acc : ChatState × List ChatRequest)
    (hacc : ∀ r ∈ acc.2, r.url = b ++ apiChatPath) :
    ∀ r ∈ (events.foldl (runSendsStep b) acc).2, r.url = b ++ apiChatPath := by
  induction events generalizing acc with
  | nil => exact hacc
  | cons ev evs ih =>
      refine ih (runSendsStep b acc ev) ?_
      intro r hr
      simp only [runSendsStep, List.mem_append] at hr
      rcases hr with hr | hr
      · exact hacc r hr
      · exact handleSend_requests_url b ev.messageText ev.fetched acc.1 r hr

/-- C1: an accepted user turn sends one POST whose JSON body carries exactly
the fields `message` (the text being sent) and `session_id` (the current
identifier or null), and a successful response is read as an object with
fields `response`, `session_id` and optional `image_url`, which become the
assistant message and the session update. -/
theorem chat_request_and_response_shape (b : String) (mt : Option String)
    (st : ChatState) (d : ChatResponse) (h : sendAccepted st mt = true) :
    handleSend b mt (.http true d) st =
      ({ st with
          messages := st.messages ++
            [⟨"user", jsOrString mt (jsTrim st.input), none⟩,
             ⟨"assistant", d.response, jsOrUndefined d.image_url⟩],
          input := "",
          isLoading := false,
          sessionId := if jsTruthy st.sessionId then st.sessionId
                       else d.session_id },
       [⟨b ++ apiChatPath, jsOrString mt (jsTrim st.input), st.sessionId⟩]) :=
  handleSend_success b mt st d h

/-- Witness for C1 at a concrete accepted turn. -/
theorem chat_request_and_response_shape_witness :
    sendAccepted ⟨[], "", false, none⟩ (some "hi") = true
    ∧ handleSend "http://localhost:8080" (some "hi")
        (.http true ⟨"hello", some "s1", some "http://img"⟩)
        ⟨[], "", false, none⟩ =
      (⟨[⟨"user", "hi", none⟩, ⟨"assistant", "hello", some "http://img"⟩],
        "", false, some "s1"⟩,
       [⟨"http://localhost:8080/api/chat/", "hi", none⟩]) :=
  ⟨by decide,
   chat_request_and_response_shape "http://localhost:8080" (some "hi")
     ⟨[], "", false, none⟩ ⟨"hello", some "s1", some "http://img"⟩ (by decide)⟩

/-- C2: when the fetch rejects or the HTTP status is not ok, the send
appends exactly one assistant message with the static apology text and no
image URL, issues exactly one request (no retry), and resets the loading
flag to false. -/
theorem failed_send_appends_static_apology (b : String) (mt : Option String)
    (st : ChatState) (f : FetchResult) (h : sendAccepted st mt = true)
    (hf : fetchFailed f = true) :
    (handleSend b mt f st).1 =
      { st with
          messages := st.messages ++
            [⟨"user", jsOrString mt (jsTrim st.input), none⟩,
             ⟨"assistant", "Sorry, I encountered an error. Please try again.",
              none⟩],
          input := "",
          isLoading := false }
    ∧ (handleSend b mt f st).2.length = 1 := by
  rw [handleSend_failure b mt st f h hf]
  exact ⟨rfl, rfl⟩

/-- Witness for C2 at a concrete failed send (network error). -/
theorem failed_send_appends_static_apology_witness :
    (sendAccepted ⟨[], "order a latte", false, some "s1"⟩ none = true
      ∧ fetchFailed .netError = true)
    ∧ (handleSend "http://localhost:8080" none .netError
        ⟨[], "order a latte", false, some "s1"⟩).1 =
      { messages :=
          [⟨"user", "order a latte", none⟩,
           ⟨"assistant", "Sorry, I encountered an error. Please try again.",
            none⟩],
        input := "", isLoading := false, sessionId := some "s1" }
    ∧ (handleSend "http://localhost:8080" none .netError
        ⟨[], "order a latte", false, some "s1"⟩).2.length = 1 :=
  ⟨⟨by decide, rfl⟩,
   failed_send_appends_static_apology "http://localhost:8080" none
     ⟨[], "order a latte", false, some "s1"⟩ .netError (by decide) rfl⟩

/-- C3 counterexample: the session guard is `if (!sessionId)`, JavaScript
falsiness, not a null test.  When the first successful response returns the
empty string as `session_id`, the identifier becomes `""` — non-null — yet a
later response's `session_id` still overwrites it, contradicting the claim
that the identifier is set only while null and never overwritten. -/
theorem session_id_overwritten_after_empty_first_id :
    (runSends "http://localhost:8080"
        [⟨some "hi", .http true ⟨"hello", some "", none⟩⟩]).1.sessionId
      = some ""
    ∧ (runSends "http://localhost:8080"
        [⟨some "hi", .http true ⟨"hello", some "", none⟩⟩,
         ⟨some "again", .http true ⟨"welcome back", some "abc", none⟩⟩]
        ).1.sessionId = some "abc" :=
  ⟨rfl, rfl⟩

/-- C3 amended: the identifier starts as null and every request carries the
current identifier; a successful response's `session_id` is adopted exactly
while the current identifier is JS-falsy (null or the empty string) and a
JS-truthy (non-empty) identifier is never overwritten; failed sends never
change it. -/
theorem session_id_lifecycle_js_falsy_guard (b : String) (mt : Option String)
    (st : ChatState) (d : ChatResponse) (f : FetchResult)
    (h : sendAccepted st mt = true) :
    (mountChatInterface []).sessionId = none
    ∧ (handleSend b mt (.http true d) st).2 =
        [⟨b ++ apiChatPath, jsOrString mt (jsTrim st.input), st.sessionId⟩]
    ∧ (jsTruthy st.sessionId = true →
        (handleSend b mt (.http true d) st).1.sessionId = st.sessionId)
    ∧ (jsTruthy st.sessionId = false →
        (handleSend b mt (.http true d) st).1.sessionId = d.session_id)
    ∧ (fetchFailed f = true →
        (handleSend b mt f st).1.sessionId = st.sessionId) := by
  refine ⟨rfl, ?_, ?_, ?_, ?_⟩
  · rw [handleSend_success b mt st d h]
  · intro ht
    rw [handleSend_success b mt st d h]
    simp [ht]
  · intro ht
    rw [handleSend_success b mt st d h]
    simp [ht]
  · intro hf
    rw [handleSend_failure b mt st f h hf]

/-- Witness for C3's amended statement at a concrete accepted turn with a
non-empty current identifier. -/
theorem session_id_lifecycle_js_falsy_guard_witness :
    sendAccepted ⟨[], "more", false, some "s0"⟩ none = true
    ∧ ((mountChatInterface []).sessionId = none
    ∧ (handleSend "http://b" none (.http true ⟨"ok", some "s9", none⟩)
        ⟨[], "more", false, some "s0"⟩).2 =
        [⟨"http://b" ++ apiChatPath,
          jsOrString none (jsTrim ("more" : String)), some "s0"⟩]
    ∧ (jsTruthy (some "s0") = true →
        (handleSend "http://b" none (.http true ⟨"ok", some "s9", none⟩)
          ⟨[], "more", false, some "s0"⟩).1.sessionId = some "s0")
    ∧ (jsTruthy (some "s0") = false →
        (handleSend "http://b" none (.http true ⟨"ok", some "s9", none⟩)
          ⟨[], "more", false, some "s0"⟩).1.sessionId = some "s9")
    ∧ (fetchFailed .netError = true →
        (handleSend "http://b" none .netError
          ⟨[], "more", false, some "s0"⟩).1.sessionId = some "s0")) :=
  ⟨by decide,
   session_id_lifecycle_js_falsy_guard "http://b" none
     ⟨[], "more", false, some "s0"⟩ ⟨"ok", some "s9", none⟩ .netError
     (by decide)⟩

/-- C4: evidence that the component does not persist the session identifier.
Mounting ignores localStorage entirely — the mounted state is identical for
every storage content and its `sessionId` is null even when storage holds
one — while the mount described by the repository's code-review notes
(`mountChatInterfaceSpec`) would load the stored identifier.  The component
also contains no storage write, so nothing is stored when a `session_id`
is received. -/
theorem mount_ignores_stored_session_id :
    (∀ storage, mountChatInterface storage = mountChatInterface [])
    ∧ (mountChatInterface [("session_id", "abc123")]).sessionId = none
    ∧ (mountChatInterfaceSpec [("session_id", "abc123")]).sessionId
        = some "abc123" :=
  ⟨fun _ => rfl, rfl, rfl⟩

/-- C5: while the loading flag is true, `handleSend` is the identity and
issues no request, and the text input, voice button and send button are all
disabled, so a second request cannot start before the first completes. -/
theorem loading_guard_blocks_second_send (b : String) (mt : Option String)
    (f : FetchResult) (st : ChatState) (h : st.isLoading = true) :
    handleSend b mt f st = (st, [])
    ∧ inputDisabled st = true
    ∧ voiceButtonDisabled st = true
    ∧ sendButtonDisabled st = true := by
  refine ⟨?_, h, h, by simp [sendButtonDisabled, h]⟩
  simp [handleSend, h]

/-- Witness for C5 at a concrete loading state. -/
theorem loading_guard_blocks_second_send_witness :
    (⟨[], "pending", true, none⟩ : ChatState).isLoading = true
    ∧ (handleSend "http://b" (some "hi") .netError
        ⟨[], "pending", true, none⟩ = (⟨[], "pending", true, none⟩, [])
    ∧ inputDisabled ⟨[], "pending", true, none⟩ = true
    ∧ voiceButtonDisabled ⟨[], "pending", true, none⟩ = true
    ∧ sendButtonDisabled ⟨[], "pending", true, none⟩ = true) :=
  ⟨rfl,
   loading_guard_blocks_second_send "http://b" (some "hi") .netError
     ⟨[], "pending", true, none⟩ rfl⟩

/-- C6: in every state reachable by sequential sends from the mounted
component, every message in the list has role `"user"` or `"assistant"`
(with a string content and optional image URL by construction): no
operation inserts a message of another shape. -/
theorem messages_roles_restricted (b : String) (events : List SendEvent) :
    rolesOk (runSends b events).1.messages = true := by
  rw [runSends, runSends_foldl_fst]
  exact foldl_stepSend_rolesOk b events _ rfl

/-- C7: an accepted turn issues exactly one request, its URL is the chat
endpoint under the configured base URL, and every request any sequential
run ever issues targets that same endpoint. -/
theorem single_chat_endpoint_requests (b : String) (mt : Option String)
    (f : FetchResult) (st : ChatState) (events : List SendEvent)
    (h : sendAccepted st mt = true) :
    (handleSend b mt f st).2.length = 1
    ∧ (∀ r ∈ (handleSend b mt f st).2, r.url = b ++ apiChatPath)
    ∧ (∀ r ∈ (runSends b events).2, r.url = b ++ apiChatPath) := by
  refine ⟨?_, handleSend_requests_url b mt f st, ?_⟩
  · cases f with
    | netError => rw [handleSend_failure b mt st .netError h rfl]; rfl
    | http ok d =>
        cases ok with
        | true => rw [handleSend_success b mt st d h]; rfl
        | false => rw [handleSend_failure b mt st (.http false d) h rfl]; rfl
  · exact foldl_requests_url b events _ (by simp)

/-- Witness for C7 at a concrete accepted turn and a concrete run. -/
theorem single_chat_endpoint_requests_witness :
    sendAccepted ⟨[], "hi", false, none⟩ none = true
    ∧ ((handleSend "http://b" none (.http true ⟨"hello", some "s1", none⟩)
        ⟨[], "hi", false, none⟩).2.length = 1
    ∧ (∀ r ∈ (handleSend "http://b" none (.http true ⟨"hello", some "s1", none⟩)
        ⟨[], "hi", false, none⟩).2, r.url = "http://b" ++ apiChatPath)
    ∧ (∀ r ∈ (runSends "http://b"
        [⟨some "hi", .http true ⟨"hello", some "s1", none⟩⟩,
         ⟨some "more", .netError⟩]).2, r.url = "http://b" ++ apiChatPath)) :=
  ⟨by decide,
   single_chat_endpoint_requests "http://b" none
     (.http true ⟨"hello", some "s1", none⟩) ⟨[], "hi", false, none⟩
     [⟨some "hi", .http true ⟨"hello", some "s1", none⟩⟩,
      ⟨some "more", .netError⟩] (by decide)⟩

/-- C8: a `handleSend` call with no explicit message argument while the
input is empty or all whitespace changes nothing: no message is appended,
no request is issued, and the input, loading flag and session identifier
keep their values. -/
theorem whitespace_input_send_is_noop (b : String) (f : FetchResult)
    (st : ChatState) (h : jsTrim st.input = "") :
    handleSend b none f st = (st, []) := by
  simp [handleSend, jsOrString, h]

/-- Witness for C8 at a concrete whitespace-only input. -/
theorem whitespace_input_send_is_noop_witness :
    jsTrim ("  \t " : String) = ""
    ∧ handleSend "http://b" none .netError
        ⟨[⟨"user", "hi", none⟩], "  \t ", false, some "s1"⟩ =
      (⟨[⟨"user", "hi", none⟩], "  \t ", false, some "s1"⟩, []) :=
  ⟨by decide,
   whitespace_input_send_is_noop "http://b" .netError
     ⟨[⟨"user", "hi", none⟩], "  \t ", false, some "s1"⟩ (by decide)⟩

/-- C9: the assistant message of a successful send carries an image URL
exactly when the response's `image_url` is truthy: a missing/null or
empty-string `image_url` yields no image URL, any non-empty one is kept. -/
theorem assistant_image_url_truthiness (b : String) (mt : Option String)
    (st : ChatState) (d : ChatResponse) (h : sendAccepted st mt = true) :
    (handleSend b mt (.http true d) st).1.messages =
      st.messages ++
        [⟨"user", jsOrString mt (jsTrim st.input), none⟩,
         ⟨"assistant", d.response, jsOrUndefined d.image_url⟩]
    ∧ jsOrUndefined none = none
    ∧ jsOrUndefined (some "") = none
    ∧ (∀ s : String, s ≠ "" → jsOrUndefined (some s) = some s) := by
  rw [handleSend_success b mt st d h]
  refine ⟨rfl, rfl, rfl, fun s hs => ?_⟩
  simp [jsOrUndefined, jsTruthy, hs]

/-- Witness for C9 at a concrete successful send with an empty `image_url`. -/
theorem assistant_image_url_truthiness_witness :
    sendAccepted ⟨[], "show latte", false, some "s1"⟩ none = true
    ∧ ((handleSend "http://b" none (.http true ⟨"here", some "s1", some ""⟩)
        ⟨[], "show latte", false, some "s1"⟩).1.messages =
      [⟨"user", "show latte", none⟩, ⟨"assistant", "here", none⟩]
    ∧ jsOrUndefined none = none
    ∧ jsOrUndefined (some "") = none
    ∧ (∀ s : String, s ≠ "" → jsOrUndefined (some s) = some s)) :=
  ⟨by decide,
   assistant_image_url_truthiness "http://b" none
     ⟨[], "show latte", false, some "s1"⟩ ⟨"here", some "s1", some ""⟩
     (by decide)⟩

/-- C10: after any sequence of completed sends the message list alternates
strictly user, assistant, … in complete pairs (so its length is even), and
one more send appends exactly two messages when accepted and none when
rejected. -/
theorem conversation_even_alternating (b : String) (events : List SendEvent)
    (ev : SendEvent) :
    alternatingRoles (runSends b events).1.messages = true
    ∧ (runSends b events).1.messages.length % 2 = 0
    ∧ (stepSend b (runSends b events).1 ev).messages.length =
        (runSends b events).1.messages.length +
          (if sendAccepted (runSends b events).1 ev.messageText then 2
           else 0) := by
  have halt : alternatingRoles (runSends b events).1.messages = true := by
    rw [runSends, runSends_foldl_fst]
    exact foldl_stepSend_alternating b events _ rfl
  exact ⟨halt, alternatingRoles_even _ halt,
    stepSend_messages_length b (runSends b events).1 ev⟩

end Barista
